import Mathlib

/-!
Shallow embedding of the WalletGlass MVP funding/defunding/PnL core
(src/mvp/pnl.py, src/mvp/funding_v1.py, src/mvp/defunding.py).
Python floats are modelled as exact rationals; `round(x, 2)` is modelled
as round-half-to-even at two decimal places; external collaborators
(price database, registries, HTTP contract check, paginated history
source) are explicit parameters, and the pagination loop takes explicit
fuel, with `none` meaning the loop has not yet exited.
-/

attribute [local semireducible] Rat.add Rat.mul Rat.sub Rat.inv Rat.ofScientific

/-- Round a rational to the nearest integer, ties to even
(the rounding mode of Python's builtin `round`). -/
def roundHalfEven (q : ℚ) : ℤ :=
  let f := ⌊q⌋
  let r : ℚ := q - (f : ℚ)
  if r < 1/2 then f
  else if 1/2 < r then f + 1
  else if f % 2 = 0 then f else f + 1

/-- Python `round(x, 2)`: two-decimal rounding, ties to even. -/
def pyRound2 (q : ℚ) : ℚ :=
  (roundHalfEven (q * 100) : ℚ) / 100

/-- Python `x or 0.0` for a float-or-None value: `None` and `0.0` are
falsy and yield `0.0`; any other float is returned unchanged. -/
def pyOrZero : Option ℚ → ℚ
  | none => 0
  | some q => if q = 0 then 0 else q

/-- Python `a or b` for two optional floats (used for
`t.get("usd_value") or t.get("usdValue")` in defunding.py): a missing
or zero first operand falls through to the second. -/
def pyOrOpt : Option ℚ → Option ℚ → Option ℚ
  | some v, b => if v = 0 then b else some v
  | none, b => b

/-- Python `s.lower()`, character by character (the addresses involved
are ASCII hex strings). -/
def pyLower (s : String) : String :=
  ⟨s.data.map Char.toLower⟩

/-- The dictionary returned by `compute_pnl` (src/mvp/pnl.py). -/
structure PnlResult where
  funded_usd : ℚ
  defunded_usd : ℚ
  net_funded_usd : ℚ
  current_value_usd : ℚ
  net_pnl_usd : ℚ
  roi_pct : ℚ
deriving DecidableEq

/-- `compute_pnl` from src/mvp/pnl.py (lines 100-135): coerces each
argument with `or 0.0`, derives net figures at full precision, clamps
ROI to 0.0 on a non-positive basis, and rounds every output field to
two decimals. -/
def compute_pnl (funded_usd defunded_usd current_value_usd : Option ℚ) :
    PnlResult :=
  let funded := pyOrZero funded_usd
  let defunded := pyOrZero defunded_usd
  let current := pyOrZero current_value_usd
  let net_funded := funded - defunded
  let net_pnl := current - net_funded
  let roi : ℚ := if 0 < net_funded then net_pnl / net_funded * 100 else 0
  { funded_usd := pyRound2 funded
    defunded_usd := pyRound2 defunded
    net_funded_usd := pyRound2 net_funded
    current_value_usd := pyRound2 current
    net_pnl_usd := pyRound2 net_pnl
    roi_pct := pyRound2 roi }

/-- A raw event dictionary as read by pnl.py's format adapters: the
`usd` and `status` keys may be absent. -/
structure PEvent where
  usd : Option ℚ
  status : Option String
deriving DecidableEq

/-- `_extract_total_funded_usd` from src/mvp/pnl.py (lines 54-64), list
branch: `sum(e.get("usd", 0.0) for e in obj if e.get("status") == "accepted")`. -/
def extract_total_funded_usd (events : List PEvent) : ℚ :=
  ((events.filter fun e => e.status == some "accepted").map
    fun e => e.usd.getD 0).sum

/-- A labeled transfer event as emitted by the funding_v1/defunding
parsers (`counterparty` is the `from` field of a funding event and the
`to` field of a defunding event). -/
structure Event where
  hash : String
  block : ℤ
  timestamp : String
  token : String
  counterparty : String
  amount : ℚ
  usd : ℚ
  status : String
  reason : String
deriving DecidableEq

/-- `_sum_defunded_usd` from src/mvp/defunding.py (lines 38-39):
`round(sum(e.get("usd", 0.0) for e in events if e.get("status") == "accepted"), 2)`. -/
def sum_defunded_usd (events : List Event) : ℚ :=
  pyRound2 ((events.filter fun e => e.status == "accepted").map
    fun e => e.usd).sum

/-- One entry of the `result` list of an Etherscan getsourcecode
response; `ABI` is read with default `""`. -/
structure SrcEntry where
  ABI : String
deriving DecidableEq

/-- What the contract-check collaborator (requests.get against
Etherscan) can produce: a raised exception (including timeouts), or a
response with a status code and an optionally well-formed `result`
list (`none` models a missing or non-list `result`). -/
inductive ContractResp where
  | exn : ContractResp
  | resp : ℕ → Option (List SrcEntry) → ContractResp

/-- The external collaborators of the extraction/classification
pipeline: the fallback ETH price DB, the two address registries, and
the contract-check HTTP call. -/
structure Cfg where
  priceDb : String → Option ℚ
  knownSources : List String
  knownSinks : List String
  contractCheck : String → ContractResp

/-- `is_contract` from src/mvp/funding_v1.py (lines 57-80) and
src/mvp/defunding.py (lines 60-80): any exception or non-200 status
returns False; a missing/empty/non-list `result` returns False;
otherwise the first entry's ABI must be a real ABI string. -/
def is_contract (cc : String → ContractResp) (address : String) : Bool :=
  match cc address with
  | .exn => false
  | .resp code result =>
    if code ≠ 200 then false
    else
      match result with
      | none => false
      | some [] => false
      | some (e :: _) =>
        !(e.ABI == "" || e.ABI == "Contract source code not verified")

/-- `get_eth_usd_price` from funding_v1.py/defunding.py: a lookup in
the date-indexed fallback price DB. -/
def get_eth_usd_price (cfg : Cfg) (date : String) : Option ℚ :=
  cfg.priceDb date

/-- `label_funding_source` from src/mvp/funding_v1.py (lines 87-97). -/
def label_funding_source (cfg : Cfg) (sender : String) : String × String :=
  let s := pyLower sender
  if s ∈ cfg.knownSources then ("accepted", "known_source")
  else if is_contract cfg.contractCheck s then
    ("rejected", "from_contract_not_in_registry")
  else ("eoa", "from_eoa_not_in_registry")

/-- `label_defunding_sink` from src/mvp/defunding.py (lines 87-94). -/
def label_defunding_sink (cfg : Cfg) (receiver : String) : String × String :=
  let r := pyLower receiver
  if r ∈ cfg.knownSinks then ("accepted", "known_sink")
  else if is_contract cfg.contractCheck r then
    ("rejected", "to_contract_not_in_registry")
  else ("eoa", "to_eoa_not_in_registry")

/-- One native or ERC-20 transfer sub-record of a raw transaction
(`from_address`/`to_address` default to `""`, `value_formatted` to 0,
`token_symbol` to `"UNKNOWN"`, per the `.get` defaults in the source). -/
structure Transfer where
  from_address : String
  to_address : String
  value_formatted : ℚ
  token_symbol : String
  usd_value : Option ℚ
  usdValue : Option ℚ
deriving DecidableEq

/-- A raw transaction record from the paginated history source. -/
structure Tx where
  hash : String
  block_number : ℤ
  block_timestamp : String
  value : Option ℚ
  native_transfers : List Transfer
  erc20_transfers : List Transfer
deriving DecidableEq

namespace FundingV1

/-- Body of the loop of `parse_eth` from src/mvp/funding_v1.py
(lines 100-131) for a single native transfer: `none` is `continue`. -/
def parse_eth_one (cfg : Cfg) (wallet : String) (tx : Tx) (t : Transfer) :
    Option Event :=
  let to_addr := pyLower t.to_address
  let from_addr := pyLower t.from_address
  if to_addr ≠ wallet ∨ from_addr = wallet then none
  else
    let amount := t.value_formatted
    if amount < 0.01 then none
    else
      let date := tx.block_timestamp.take 10
      match get_eth_usd_price cfg date with
      | none => none
      | some usd_price =>
        let usd := pyRound2 (usd_price * amount)
        let sr := label_funding_source cfg from_addr
        some { hash := tx.hash, block := tx.block_number, timestamp := date,
               token := "ETH", counterparty := from_addr, amount := amount,
               usd := usd, status := sr.1, reason := sr.2 }

/-- `parse_eth` from src/mvp/funding_v1.py (lines 100-131). -/
def parse_eth (cfg : Cfg) (wallet : String) (tx : Tx) : List Event :=
  tx.native_transfers.filterMap (parse_eth_one cfg wallet tx)

/-- Body of the loop of `parse_erc20` from src/mvp/funding_v1.py
(lines 134-167) for a single token transfer, including the
`usd <= 0 or usd > 1_000_000` sanity bound. -/
def parse_erc20_one (cfg : Cfg) (wallet : String) (tx : Tx) (t : Transfer) :
    Option Event :=
  let to_addr := pyLower t.to_address
  let from_addr := pyLower t.from_address
  if to_addr ≠ wallet ∨ from_addr = wallet then none
  else
    let symbol := t.token_symbol
    let amount := t.value_formatted
    if amount < 1 ∨ symbol = "UNKNOWN" then none
    else
      let usd := tx.value.getD 0
      if usd ≤ 0 ∨ 1000000 < usd then none
      else
        let sr := label_funding_source cfg from_addr
        some { hash := tx.hash, block := tx.block_number,
               timestamp := tx.block_timestamp.take 10, token := symbol,
               counterparty := from_addr, amount := amount,
               usd := pyRound2 usd, status := sr.1, reason := sr.2 }

/-- `parse_erc20` from src/mvp/funding_v1.py (lines 134-167). -/
def parse_erc20 (cfg : Cfg) (wallet : String) (tx : Tx) : List Event :=
  tx.erc20_transfers.filterMap (parse_erc20_one cfg wallet tx)

end FundingV1

namespace Defunding

/-- Body of the loop of `parse_eth` from src/mvp/defunding.py
(lines 97-128) for a single native transfer (outbound direction). -/
def parse_eth_one (cfg : Cfg) (wallet : String) (tx : Tx) (t : Transfer) :
    Option Event :=
  let from_addr := pyLower t.from_address
  let to_addr := pyLower t.to_address
  if from_addr ≠ wallet ∨ to_addr = wallet then none
  else
    let amount := t.value_formatted
    if amount < 0.01 then none
    else
      let date := tx.block_timestamp.take 10
      match get_eth_usd_price cfg date with
      | none => none
      | some usd_price =>
        let usd := pyRound2 (usd_price * amount)
        let sr := label_defunding_sink cfg to_addr
        some { hash := tx.hash, block := tx.block_number, timestamp := date,
               token := "ETH", counterparty := to_addr, amount := amount,
               usd := usd, status := sr.1, reason := sr.2 }

/-- `parse_eth` from src/mvp/defunding.py (lines 97-128). -/
def parse_eth (cfg : Cfg) (wallet : String) (tx : Tx) : List Event :=
  tx.native_transfers.filterMap (parse_eth_one cfg wallet tx)

/-- Body of the loop of `parse_erc20` from src/mvp/defunding.py
(lines 131-167) for a single token transfer: the USD value falls back
from `usd_value`/`usdValue` to the transaction-level `value`, with 0
as the last resort, and no sanity bound is applied. -/
def parse_erc20_one (cfg : Cfg) (wallet : String) (tx : Tx) (t : Transfer) :
    Option Event :=
  let from_addr := pyLower t.from_address
  let to_addr := pyLower t.to_address
  if from_addr ≠ wallet ∨ to_addr = wallet then none
  else
    let symbol := t.token_symbol
    let amount := t.value_formatted
    if amount < 1 ∨ symbol = "UNKNOWN" then none
    else
      let usd :=
        match pyOrOpt t.usd_value t.usdValue with
        | some v => v
        | none => tx.value.getD 0
      let sr := label_defunding_sink cfg to_addr
      some { hash := tx.hash, block := tx.block_number,
             timestamp := tx.block_timestamp.take 10, token := symbol,
             counterparty := to_addr, amount := amount,
             usd := pyRound2 usd, status := sr.1, reason := sr.2 }

/-- `parse_erc20` from src/mvp/defunding.py (lines 131-167). -/
def parse_erc20 (cfg : Cfg) (wallet : String) (tx : Tx) : List Event :=
  tx.erc20_transfers.filterMap (parse_erc20_one cfg wallet tx)

end Defunding

/-- One page of the paginated history source: the `result` list and
the next cursor (`none` models a missing `cursor` key). -/
structure Page where
  result : List Tx
  cursor : Option String

/-- Python truthiness test `not cursor` on `data.get("cursor")`:
true for a missing cursor and for the empty string. -/
def cursorFalsy : Option String → Bool
  | none => true
  | some s => s == ""

/-- The `while True` pagination loop of `fetch_transactions`
(src/mvp/funding_v1.py lines 36-54, src/mvp/defunding.py lines 42-57),
with explicit fuel: each iteration appends the page's `result` and
breaks when the cursor is falsy or at least 1000 records have
accumulated. `none` means the fuel ran out with the loop still
running. -/
def fetchGo (src : String → Page) : ℕ → List Tx → String → Option (List Tx)
  | 0, _, _ => none
  | n + 1, acc, cur =>
    let page := src cur
    let acc2 := acc ++ page.result
    if cursorFalsy page.cursor = true ∨ 1000 ≤ acc2.length then some acc2
    else fetchGo src n acc2 (page.cursor.getD "")

/-- `fetch_transactions`: the pagination loop started with an empty
accumulator and the empty cursor. -/
def fetch_transactions (src : String → Page) (fuel : ℕ) : Option (List Tx) :=
  fetchGo src fuel [] ""

/-- The pagination loop never exits, whatever fuel it is given. -/
def fetchNeverCompletes (src : String → Page) : Prop :=
  ∀ fuel, fetch_transactions src fuel = none

/-- The dictionary returned by `get_defunding` (src/mvp/defunding.py
lines 170-184). -/
structure DefundingResult where
  defunded_usd : ℚ
  events : List Event
deriving DecidableEq

/-- `get_defunding` from src/mvp/defunding.py (lines 170-184):
lower-cases the address, fetches the paged history, parses every
transaction's native and token transfers, and returns the accepted
total next to the full event list. -/
def get_defunding (cfg : Cfg) (src : String → Page) (address : String)
    (fuel : ℕ) : Option DefundingResult :=
  let target := pyLower address
  match fetch_transactions src fuel with
  | none => none
  | some txs =>
    let all_events := txs.flatMap fun tx =>
      Defunding.parse_eth cfg target tx ++ Defunding.parse_erc20 cfg target tx
    some { defunded_usd := sum_defunded_usd all_events, events := all_events }

/-- The contract-check collaborator failed: the request raised (also
covering timeouts) or the response had a non-200 status code. -/
def contractCheckFailedB : ContractResp → Bool
  | .exn => true
  | .resp code _ => code != 200

/-- The trivial collaborator set used by concrete witnesses: no
prices, empty registries, a contract check that always raises. -/
def cfg0 : Cfg :=
  { priceDb := fun _ => none, knownSources := [], knownSinks := [],
    contractCheck := fun _ => .exn }

/-- A history source whose first page is empty with no next cursor. -/
def srcNil : String → Page := fun _ => { result := [], cursor := none }

/-- A self-transfer sub-record used by the C6 witness. -/
def selfTransfer : Transfer :=
  { from_address := "0xW", to_address := "0xW", value_formatted := 5,
    token_symbol := "USDC", usd_value := none, usdValue := none }

/-- An otherwise well-formed transaction carrying only the
self-transfer, used by the C6 witness. -/
def selfTx : Tx :=
  { hash := "0xh6", block_number := 3,
    block_timestamp := "2024-03-03T00:00:00", value := some 10,
    native_transfers := [selfTransfer], erc20_transfers := [selfTransfer] }

/-- Collaborators with one known defunding sink and no prices, used
for the C5 analysis. -/
def sinkCfg : Cfg :=
  { priceDb := fun _ => none, knownSources := [], knownSinks := ["0xsink"],
    contractCheck := fun _ => .exn }

/-- An outbound ERC-20 transfer with no per-transfer USD valuation. -/
def noUsdTransfer : Transfer :=
  { from_address := "0xW", to_address := "0xSINK", value_formatted := 5,
    token_symbol := "USDC", usd_value := none, usdValue := none }

/-- A transaction with no transaction-level `value` either, so the
USD valuation of its one ERC-20 transfer is entirely unavailable. -/
def noValueTx : Tx :=
  { hash := "0xh5", block_number := 1,
    block_timestamp := "2024-01-01T00:00:00", value := none,
    native_transfers := [], erc20_transfers := [noUsdTransfer] }

/-- Collaborators for the C3 analysis: the price DB knows 2024-01-01
at 1000.50 USD/ETH and the receiver is a known sink. -/
def c3cfg : Cfg :=
  { priceDb := fun d => if d = "2024-01-01" then some 1000.5 else none,
    knownSources := [], knownSinks := ["0xsink"],
    contractCheck := fun _ => .exn }

/-- An outbound native transfer of 0.01 ETH (unrounded USD value
1000.50 * 0.01 = 10.005). -/
def c3transfer : Transfer :=
  { from_address := "0xw", to_address := "0xsink", value_formatted := 0.01,
    token_symbol := "", usd_value := none, usdValue := none }

/-- A transaction with three such 10.005-USD outbound transfers. -/
def c3tx : Tx :=
  { hash := "0xh3", block_number := 7,
    block_timestamp := "2024-01-01T12:00:00", value := none,
    native_transfers := [c3transfer, c3transfer, c3transfer],
    erc20_transfers := [] }

/-- The event the defunding ETH parser emits for `c3transfer`: its
`usd` is already rounded from 10.005 to 10. -/
def c3event : Event :=
  { hash := "0xh3", block := 7, timestamp := "2024-01-01", token := "ETH",
    counterparty := "0xsink", amount := 0.01, usd := 10,
    status := "accepted", reason := "known_sink" }

/-- A history source that always produces an empty page with a next
cursor: the pagination loop never makes progress on it. -/
def emptyPagesSrc : String → Page :=
  fun _ => { result := [], cursor := some "more" }

/-- A minimal raw transaction used to populate synthetic pages. -/
def txNil : Tx :=
  { hash := "0x0", block_number := 0, block_timestamp := "", value := none,
    native_transfers := [], erc20_transfers := [] }

/-- A history source whose every page carries 1000 records and a next
cursor: the safety cap stops the loop on the first page. -/
def bigPageSrc : String → Page :=
  fun _ => { result := List.replicate 1000 txNil, cursor := some "k" }

/-- Collaborators for the C8 analysis: the sender is a known funding
source. -/
def c8cfg : Cfg :=
  { priceDb := fun _ => none, knownSources := ["0xsrc"], knownSinks := [],
    contractCheck := fun _ => .exn }

/-- An inbound ERC-20 transfer of 10 tokens from the known source. -/
def bigUsdTransfer : Transfer :=
  { from_address := "0xsrc", to_address := "0xw", value_formatted := 10,
    token_symbol := "PEPE", usd_value := none, usdValue := none }

/-- A transaction valuing the transfer at 2,000,000 USD, above the
sanity bound. -/
def bigUsdTx : Tx :=
  { hash := "0xh8", block_number := 2,
    block_timestamp := "2024-02-02T00:00:00", value := some 2000000,
    native_transfers := [], erc20_transfers := [bigUsdTransfer] }

/-- The same transaction valued at 500 USD, inside the sanity bound. -/
def okUsdTx : Tx :=
  { hash := "0xh8", block_number := 2,
    block_timestamp := "2024-02-02T00:00:00", value := some 500,
    native_transfers := [], erc20_transfers := [bigUsdTransfer] }

lemma pyOrZero_some (q : ℚ) : pyOrZero (some q) = q := by
  unfold pyOrZero
  split <;> simp_all

lemma pyRound2_zero : pyRound2 0 = 0 := by decide

example : pyRound2 (10.005 : ℚ) = 10 := by decide

example : pyRound2 (30.015 : ℚ) = 30.02 := by decide

example : compute_pnl (some 1000) (some 0) (some 1500) =
    { funded_usd := 1000, defunded_usd := 0, net_funded_usd := 1000,
      current_value_usd := 1500, net_pnl_usd := 500, roi_pct := 50 } := by
  decide

/-- C1: for all inputs, `compute_pnl` returns
net_funded_usd = funded - defunded and net_pnl_usd = current - net_funded,
with roi_pct = (net_pnl / net_funded) * 100 when net_funded > 0 and
roi_pct exactly 0.0 when net_funded <= 0, every output field rounded to
two decimal places. -/
theorem claim_C1_compute_pnl (f d c : ℚ) :
    (compute_pnl (some f) (some d) (some c)).funded_usd = pyRound2 f ∧
    (compute_pnl (some f) (some d) (some c)).defunded_usd = pyRound2 d ∧
    (compute_pnl (some f) (some d) (some c)).current_value_usd = pyRound2 c ∧
    (compute_pnl (some f) (some d) (some c)).net_funded_usd =
      pyRound2 (f - d) ∧
    (compute_pnl (some f) (some d) (some c)).net_pnl_usd =
      pyRound2 (c - (f - d)) ∧
    (0 < f - d →
      (compute_pnl (some f) (some d) (some c)).roi_pct =
        pyRound2 ((c - (f - d)) / (f - d) * 100)) ∧
    (f - d ≤ 0 → (compute_pnl (some f) (some d) (some c)).roi_pct = 0) := by
  unfold compute_pnl
  simp only [pyOrZero_some]
  refine ⟨trivial, trivial, trivial, trivial, trivial, ?_, ?_⟩
  · intro h
    simp only [if_pos h]
  · intro h
    simp only [if_neg (not_lt.mpr h), pyRound2_zero]

/-- Witness for C1 at the zero-basis-clamp input
funded=100, defunded=150, current=10. -/
theorem claim_C1_compute_pnl_witness :
    (compute_pnl (some 100) (some 150) (some 10)).roi_pct = 0 :=
  (claim_C1_compute_pnl 100 150 10).2.2.2.2.2.2 (by decide)

/-- C10: `compute_pnl` is total over None/falsy arguments: a `None`
argument (or a falsy 0.0) is treated as 0.0, and
`compute_pnl(None, None, None)` returns all six fields equal to 0.0. -/
theorem claim_C10_compute_pnl_total :
    compute_pnl none none none =
      { funded_usd := 0, defunded_usd := 0, net_funded_usd := 0,
        current_value_usd := 0, net_pnl_usd := 0, roi_pct := 0 } ∧
    (∀ d c, compute_pnl none d c = compute_pnl (some 0) d c) ∧
    (∀ f c, compute_pnl f none c = compute_pnl f (some 0) c) ∧
    (∀ f d, compute_pnl f d none = compute_pnl f d (some 0)) := by
  refine ⟨by decide, ?_, ?_, ?_⟩ <;> intros <;> rfl

/-- C2: only events with status "accepted" contribute to the funded and
defunded totals; inserting an event of any other status anywhere leaves
both sums unchanged, and the example list
[{usd:100,status:accepted}, {usd:50,status:rejected}] totals 100. -/
theorem claim_C2_accepted_only :
    (∀ (l1 l2 : List PEvent) (e : PEvent), e.status ≠ some "accepted" →
      extract_total_funded_usd (l1 ++ e :: l2) =
        extract_total_funded_usd (l1 ++ l2)) ∧
    (∀ (l1 l2 : List Event) (e : Event), e.status ≠ "accepted" →
      sum_defunded_usd (l1 ++ e :: l2) = sum_defunded_usd (l1 ++ l2)) ∧
    extract_total_funded_usd
      [⟨some 100, some "accepted"⟩, ⟨some 50, some "rejected"⟩] = 100 := by
  refine ⟨?_, ?_, by decide⟩
  · intro l1 l2 e h
    unfold extract_total_funded_usd
    rw [List.filter_append, List.filter_append, List.filter_cons_of_neg]
    simpa [beq_iff_eq] using h
  · intro l1 l2 e h
    unfold sum_defunded_usd
    rw [List.filter_append, List.filter_append, List.filter_cons_of_neg]
    simpa [beq_iff_eq] using h

/-- Witness for C2: a rejected 50-USD event inserted in front of an
accepted 100-USD event leaves the funded total unchanged. -/
theorem claim_C2_accepted_only_witness :
    extract_total_funded_usd
      [⟨some 50, some "rejected"⟩, ⟨some 100, some "accepted"⟩] =
      extract_total_funded_usd [⟨some 100, some "accepted"⟩] :=
  claim_C2_accepted_only.1 [] [⟨some 100, some "accepted"⟩]
    ⟨some 50, some "rejected"⟩ (by decide)

/-- C9: whenever `get_defunding` returns a record, its `defunded_usd`
field is exactly `_sum_defunded_usd` of its own `events` field. -/
theorem claim_C9_get_defunding_consistent (cfg : Cfg) (src : String → Page)
    (address : String) (fuel : ℕ) (r : DefundingResult)
    (h : get_defunding cfg src address fuel = some r) :
    r.defunded_usd = sum_defunded_usd r.events := by
  unfold get_defunding at h
  cases hfe : fetch_transactions src fuel with
  | none => rw [hfe] at h; exact absurd h (by simp)
  | some txs =>
    rw [hfe] at h
    simp only [Option.some.injEq] at h
    subst h
    rfl

/-- Witness for C9 on the empty history source. -/
theorem claim_C9_get_defunding_consistent_witness :
    get_defunding cfg0 srcNil "0xA" 1 = some ⟨0, []⟩ ∧
    (0 : ℚ) = sum_defunded_usd [] :=
  ⟨by decide,
   claim_C9_get_defunding_consistent cfg0 srcNil "0xA" 1 ⟨0, []⟩ (by decide)⟩

/-- C4: when the counterparty is in neither registry and the external
contract check fails (raises, times out, or returns a non-success
response), classification does not propagate the error: the address is
labeled eoa with the direction's *_eoa_not_in_registry reason. -/
theorem claim_C4_classifier_fail_open (cfg : Cfg) (addr : String)
    (h1 : pyLower addr ∉ cfg.knownSources)
    (h2 : pyLower addr ∉ cfg.knownSinks)
    (h3 : contractCheckFailedB (cfg.contractCheck (pyLower addr)) = true) :
    label_funding_source cfg addr = ("eoa", "from_eoa_not_in_registry") ∧
    label_defunding_sink cfg addr = ("eoa", "to_eoa_not_in_registry") := by
  have hic : is_contract cfg.contractCheck (pyLower addr) = false := by
    unfold is_contract
    cases hcc : cfg.contractCheck (pyLower addr) with
    | exn => rfl
    | resp code result =>
      rw [hcc] at h3
      have : code ≠ 200 := by simpa [contractCheckFailedB] using h3
      simp [this]
  constructor
  · unfold label_funding_source
    rw [if_neg h1, hic]
    simp
  · unfold label_defunding_sink
    rw [if_neg h2, hic]
    simp

/-- Witness for C4: an address unknown to the empty registries whose
contract check raises. -/
theorem claim_C4_classifier_fail_open_witness :
    label_funding_source cfg0 "0xAb" = ("eoa", "from_eoa_not_in_registry") ∧
    label_defunding_sink cfg0 "0xAb" = ("eoa", "to_eoa_not_in_registry") :=
  claim_C4_classifier_fail_open cfg0 "0xAb" (by decide) (by decide) (by decide)

/-- C6: a self-transfer (sender and receiver both the target wallet)
is never emitted, in all four extraction paths (native and ERC-20,
funding and defunding). -/
theorem claim_C6_self_transfer_excluded (cfg : Cfg) (w : String) (tx : Tx)
    (t : Transfer) (hf : pyLower t.from_address = w)
    (ht : pyLower t.to_address = w) :
    FundingV1.parse_eth_one cfg w tx t = none ∧
    FundingV1.parse_erc20_one cfg w tx t = none ∧
    Defunding.parse_eth_one cfg w tx t = none ∧
    Defunding.parse_erc20_one cfg w tx t = none := by
  refine ⟨?_, ?_, ?_, ?_⟩
  · unfold FundingV1.parse_eth_one
    rw [if_pos (Or.inr hf)]
  · unfold FundingV1.parse_erc20_one
    rw [if_pos (Or.inr hf)]
  · unfold Defunding.parse_eth_one
    rw [if_pos (Or.inr ht)]
  · unfold Defunding.parse_erc20_one
    rw [if_pos (Or.inr ht)]

/-- Witness for C6 on a concrete self-transfer. -/
theorem claim_C6_self_transfer_excluded_witness :
    FundingV1.parse_eth_one cfg0 "0xw" selfTx selfTransfer = none ∧
    FundingV1.parse_erc20_one cfg0 "0xw" selfTx selfTransfer = none ∧
    Defunding.parse_eth_one cfg0 "0xw" selfTx selfTransfer = none ∧
    Defunding.parse_erc20_one cfg0 "0xw" selfTx selfTransfer = none :=
  claim_C6_self_transfer_excluded cfg0 "0xw" selfTx selfTransfer
    (by decide) (by decide)

/-- C5 counterexample: in the defunding ERC-20 path, a transfer whose
USD valuation is entirely unavailable (no `usd_value`, no `usdValue`,
no transaction-level `value`) is NOT dropped: it is emitted with
usd = 0.0, and as an accepted event it contributes a 0 standing in for
"price unavailable" to the accepted sum. This refutes the claim that
such events are dropped entirely. -/
theorem claim_C5_counterexample :
    Defunding.parse_erc20 sinkCfg "0xw" noValueTx =
      [{ hash := "0xh5", block := 1, timestamp := "2024-01-01",
         token := "USDC", counterparty := "0xsink", amount := 5, usd := 0,
         status := "accepted", reason := "known_sink" }] ∧
    sum_defunded_usd (Defunding.parse_erc20 sinkCfg "0xw" noValueTx) = 0 := by
  decide

/-- C5 amended: missing prices drop the event in the ETH paths, and in
the funding_v1 ERC-20 path a missing transaction value leads to usd = 0
which the sanity bound drops; but the defunding ERC-20 path falls back
to the transaction-level value and, when that too is absent, emits the
event with usd = 0.0 instead of dropping it. -/
theorem claim_C5_amended :
    (∀ (cfg : Cfg) (w : String) (tx : Tx) (t : Transfer),
      get_eth_usd_price cfg (tx.block_timestamp.take 10) = none →
      FundingV1.parse_eth_one cfg w tx t = none ∧
      Defunding.parse_eth_one cfg w tx t = none) ∧
    (∀ (cfg : Cfg) (w : String) (tx : Tx) (t : Transfer),
      tx.value = none → FundingV1.parse_erc20_one cfg w tx t = none) ∧
    (∀ (cfg : Cfg) (w : String) (tx : Tx) (t : Transfer) (ev : Event),
      t.usd_value = none → t.usdValue = none → tx.value = none →
      Defunding.parse_erc20_one cfg w tx t = some ev → ev.usd = 0) := by
  refine ⟨?_, ?_, ?_⟩
  · intro cfg w tx t h
    constructor
    · simp [FundingV1.parse_eth_one, h]
    · simp [Defunding.parse_eth_one, h]
  · intro cfg w tx t h
    simp [FundingV1.parse_erc20_one, h]
  · intro cfg w tx t ev h1 h2 h3 hsome
    unfold Defunding.parse_erc20_one at hsome
    rw [h1, h2, h3] at hsome
    simp only [pyOrOpt, Option.getD_none] at hsome
    split_ifs at hsome
    injection hsome with h4
    subst h4
    exact pyRound2_zero

/-- Witness for the amended C5 on the concrete no-valuation transfer. -/
theorem claim_C5_amended_witness :
    ({ hash := "0xh5", block := 1, timestamp := "2024-01-01",
       token := "USDC", counterparty := "0xsink", amount := 5, usd := 0,
       status := "accepted", reason := "known_sink" } : Event).usd = 0 :=
  claim_C5_amended.2.2 sinkCfg "0xw" noValueTx noUsdTransfer _
    (by decide) (by decide) (by decide) (by decide)

/-- C3 counterexample: three accepted outbound ETH transfers, each of
unrounded USD value 1000.50 * 0.01 = 10.005, total 30 (each event's
usd is rounded to 10 at emission, and the total sums those rounded
values), whereas rounding the full-precision sum 30.015 exactly once
gives 30.02. The code's total is NOT the round-once-at-the-boundary
value the claim requires. -/
theorem claim_C3_counterexample :
    sum_defunded_usd (Defunding.parse_eth c3cfg "0xw" c3tx) = 30 ∧
    pyRound2 (1000.5 * 0.01 + 1000.5 * 0.01 + 1000.5 * 0.01) = 30.02 ∧
    (30 : ℚ) ≠ 30.02 := by
  refine ⟨by decide, by decide, by decide⟩

/-- C3 amended: per-event USD values are rounded to two decimals when
each event is created (every event the defunding ETH parser emits
carries `usd = pyRound2 (price * amount)` for its source transfer), and
`_sum_defunded_usd` then rounds the sum of those already-rounded
values once more; totals are therefore sums of rounded values, not a
single rounding of the full-precision sum. -/
theorem claim_C3_amended (cfg : Cfg) (w : String) (tx : Tx) (ev : Event)
    (h : ev ∈ Defunding.parse_eth cfg w tx) :
    ∃ t ∈ tx.native_transfers, ∃ p,
      get_eth_usd_price cfg (tx.block_timestamp.take 10) = some p ∧
      ev.usd = pyRound2 (p * t.value_formatted) := by
  unfold Defunding.parse_eth at h
  rw [List.mem_filterMap] at h
  obtain ⟨t, hmem, hone⟩ := h
  refine ⟨t, hmem, ?_⟩
  unfold Defunding.parse_eth_one at hone
  dsimp only at hone
  split_ifs at hone
  cases hp : get_eth_usd_price cfg (tx.block_timestamp.take 10) with
  | none => rw [hp] at hone; cases hone
  | some p =>
    rw [hp] at hone
    injection hone with h4
    subst h4
    exact ⟨p, rfl, rfl⟩

/-- Witness for the amended C3 on a concrete emitted event whose
unrounded USD value is 10.005 and whose stored usd is 10. -/
theorem claim_C3_amended_witness :
    c3event ∈ Defunding.parse_eth c3cfg "0xw" c3tx ∧
    ∃ t ∈ c3tx.native_transfers, ∃ p,
      get_eth_usd_price c3cfg (c3tx.block_timestamp.take 10) = some p ∧
      c3event.usd = pyRound2 (p * t.value_formatted) :=
  ⟨by decide, claim_C3_amended c3cfg "0xw" c3tx c3event (by decide)⟩

lemma fetchGo_succ (src : String → Page) (n : ℕ) (acc : List Tx) (c : String) :
    fetchGo src (n + 1) acc c =
      if cursorFalsy (src c).cursor = true ∨
          1000 ≤ (acc ++ (src c).result).length
      then some (acc ++ (src c).result)
      else fetchGo src n (acc ++ (src c).result) ((src c).cursor.getD "") :=
  rfl

lemma fetchGo_emptyPages (n : ℕ) : ∀ c, fetchGo emptyPagesSrc n [] c = none := by
  induction n with
  | zero => intro c; rfl
  | succ m ih =>
    intro c
    simp only [fetchGo, emptyPagesSrc]
    rw [if_neg (by decide)]
    simpa using ih "more"

/-- C7 counterexample: on a history source that forever returns a next
cursor with an EMPTY result list, the pagination loop never exits: the
accumulated count stays 0, so neither stop condition ever fires,
whatever fuel the loop is given. The claim's "for every history source
... terminates" is false. -/
theorem claim_C7_counterexample : fetchNeverCompletes emptyPagesSrc :=
  fun fuel => fetchGo_emptyPages fuel ""

lemma fetchGo_isSome (src : String → Page) (h : ∀ c, (src c).result ≠ []) :
    ∀ (n : ℕ) (acc : List Tx) (c : String), 1 ≤ n → 1000 ≤ acc.length + n →
      (fetchGo src n acc c).isSome = true := by
  intro n
  induction n with
  | zero => intro acc c h1 _; exact absurd h1 (by simp)
  | succ m ih =>
    intro acc c _ h2
    simp only [fetchGo]
    by_cases hc :
        cursorFalsy (src c).cursor = true ∨ 1000 ≤ (acc ++ (src c).result).length
    · rw [if_pos hc]
      rfl
    · rw [if_neg hc]
      push_neg at hc
      obtain ⟨-, hlen⟩ := hc
      have hres : 1 ≤ (src c).result.length :=
        List.length_pos.mpr (h c)
      rw [List.length_append] at hlen
      apply ih
      · omega
      · rw [List.length_append]
        omega

/-- C7 amended: the pagination loop terminates for every history
source whose pages are nonempty: within 1000 iterations it stops
(returning the accumulated records as a normal result), and when the
very first page carries no next cursor it returns exactly that page;
a source that forever returns a cursor with empty pages, however,
makes the loop spin forever (see the counterexample). -/
theorem claim_C7_amended (src : String → Page)
    (h : ∀ c, (src c).result ≠ []) :
    (fetch_transactions src 1000).isSome = true ∧
    (cursorFalsy (src "").cursor = true →
      fetch_transactions src 1000 = some ((src "").result)) := by
  constructor
  · exact fetchGo_isSome src h 1000 [] "" (by norm_num) (by simp)
  · intro hcur
    unfold fetch_transactions
    rw [show (1000 : ℕ) = 999 + 1 from rfl, fetchGo_succ,
      if_pos (Or.inl hcur), List.nil_append]

/-- Witness for the amended C7: a source with 1000-record pages stops
at the cap on the first page. -/
theorem claim_C7_amended_witness :
    (∀ c, (bigPageSrc c).result ≠ []) ∧
    (fetch_transactions bigPageSrc 1000).isSome = true := by
  have hne : ∀ c, (bigPageSrc c).result ≠ [] := by
    intro c hc
    have hl : (List.replicate 1000 txNil).length = 0 := by
      rw [show List.replicate 1000 txNil = (bigPageSrc c).result from rfl, hc]
      rfl
    rw [List.length_replicate] at hl
    exact absurd hl (by decide)
  exact ⟨hne, (claim_C7_amended bigPageSrc hne).1⟩

/-- C8 counterexample: the funding_v1 ERC-20 parser DOES apply the
0 < usd <= 1,000,000 sanity bound: the very same qualifying transfer is
silently dropped when the transaction values it at 2,000,000 USD and
emitted when it is valued at 500 USD. -/
theorem claim_C8_counterexample :
    FundingV1.parse_erc20 c8cfg "0xw" bigUsdTx = [] ∧
    FundingV1.parse_erc20 c8cfg "0xw" okUsdTx =
      [{ hash := "0xh8", block := 2, timestamp := "2024-02-02",
         token := "PEPE", counterparty := "0xsrc", amount := 10, usd := 500,
         status := "accepted", reason := "known_source" }] := by
  refine ⟨by decide, by decide⟩

/-- C8 amended: the sanity bound is applied in the funding_v1 ERC-20
path (any transfer whose transaction-level USD value falls outside
(0, 1,000,000] yields no event) but not in the defunding ERC-20 path,
which emits an event for every transfer passing the direction, amount
and symbol guards, whatever its USD value. -/
theorem claim_C8_amended :
    (∀ (cfg : Cfg) (w : String) (tx : Tx) (t : Transfer),
      (tx.value.getD 0 ≤ 0 ∨ 1000000 < tx.value.getD 0) →
      FundingV1.parse_erc20_one cfg w tx t = none) ∧
    (∀ (cfg : Cfg) (w : String) (tx : Tx) (t : Transfer),
      pyLower t.from_address = w → pyLower t.to_address ≠ w →
      1 ≤ t.value_formatted → t.token_symbol ≠ "UNKNOWN" →
      (Defunding.parse_erc20_one cfg w tx t).isSome = true) := by
  constructor
  · intro cfg w tx t h
    simp only [FundingV1.parse_erc20_one]
    split_ifs with h1 h2
    · rfl
    · rfl
    · rfl
  · intro cfg w tx t hf hto hamt hsym
    simp only [Defunding.parse_erc20_one]
    have c1 : ¬(pyLower t.from_address ≠ w ∨ pyLower t.to_address = w) := by
      push_neg
      exact ⟨hf, hto⟩
    have c2 : ¬(t.value_formatted < 1 ∨ t.token_symbol = "UNKNOWN") := by
      push_neg
      exact ⟨not_lt.mp (fun hl => absurd hamt (not_le.mpr hl)), hsym⟩
    rw [if_neg c1, if_neg c2]
    rfl

/-- Witness for the amended C8: the 2,000,000-USD transfer is dropped
by funding_v1 and kept (as an outbound transfer) by defunding. -/
theorem claim_C8_amended_witness :
    FundingV1.parse_erc20_one c8cfg "0xw" bigUsdTx bigUsdTransfer = none ∧
    (Defunding.parse_erc20_one c8cfg "0xsrc" bigUsdTx bigUsdTransfer).isSome
      = true :=
  ⟨claim_C8_amended.1 c8cfg "0xw" bigUsdTx bigUsdTransfer (by decide),
   claim_C8_amended.2 c8cfg "0xsrc" bigUsdTx bigUsdTransfer
     (by decide) (by decide) (by decide) (by decide)⟩
